import Mathlib

/-!
Shallow embedding of the chatto library (src/chatto) in Lean 4, together
with theorems settling the frozen claims about its specification.

Conventions of the embedding:

* Python exceptions are modelled by the inductive `PyExc`; fallible code
  returns `Except PyExc α`.
* A decoded JSON dictionary is modelled by a structure whose optional keys
  have type `Option _`; reading `d["k"]` on an absent key raises
  `PyExc.keyError`.
* Network I/O is replaced by passing the decoded response payload (or a
  small environment of responses) as an explicit argument.
* `asyncio.Queue` is modelled as a FIFO `List` (head = next element to be
  dequeued; `put` appends at the tail).
* Timestamps are kept as their raw strings: `dateutil.parser.parse` is
  modelled as the identity on the string, which is faithful for every claim
  here (no claim compares or computes with parsed dates).
-/

set_option autoImplicit false

namespace Chatto

/-- Python exceptions raised by the embedded code: the chatto error
hierarchy from `src/chatto/errors.py` plus the built-in exceptions the
sources can raise (`KeyError`, `IndexError`, `AttributeError`). -/
inductive PyExc where
  | httpError (code : Int) (body : String)
  | channelNotLive (msg : String)
  | noSession (msg : String)
  | noEventQueue (msg : String)
  | noSecrets (msg : String)
  | missingRequiredInformation (msg : String)
  | keyError (key : String)
  | indexError (idx : Nat)
  | attributeError (name : String)
  deriving DecidableEq, Repr

/-- Reading `d[key]` on a dictionary field modelled as `Option α`:
`KeyError` when the key is absent. -/
def getKey {α : Type} (v : Option α) (key : String) : Except PyExc α :=
  match v with
  | some a => Except.ok a
  | none => Except.error (PyExc.keyError key)

/-- Timestamps are carried as their source strings (see module comment). -/
abbrev Timestamp := String

/-- Model of `dateutil.parser.parse` (see module comment). -/
def parse_ts (s : String) : Timestamp := s

/-- Channel dataclass from `src/chatto/channel.py`. -/
structure Channel where
  id : String
  url : String
  name : String
  avatar_url : String
  is_verified : Bool
  is_owner : Bool
  is_sponsor : Bool
  is_moderator : Bool
  deriving DecidableEq, Repr

/-- Author-details object of a liveChatMessage resource, as read by
`Channel.from_author` (all keys it reads are modelled as present). -/
structure AuthorDetails where
  channelId : String
  channelUrl : String
  displayName : String
  profileImageUrl : String
  isVerified : Bool
  isChatOwner : Bool
  isChatSponsor : Bool
  isChatModerator : Bool
  deriving DecidableEq, Repr

/-- Embeds `Channel.from_author` from `src/chatto/channel.py`. -/
def Channel.from_author (data : AuthorDetails) : Channel :=
  { id := data.channelId
    url := data.channelUrl
    name := data.displayName
    avatar_url := data.profileImageUrl
    is_verified := data.isVerified
    is_owner := data.isChatOwner
    is_sponsor := data.isChatSponsor
    is_moderator := data.isChatModerator }

/-- MessageTypes enumeration from `src/chatto/message.py`. -/
inductive MessageTypes where
  | ChatEndedEvent
  | MessageDeletedEvent
  | NewSponsorEvent
  | SponsorOnlyModeEndedEvent
  | SponsorOnlyModeStartedEvent
  | MemberMilestoneChatEvent
  | SuperChatEvent
  | SuperStickerEvent
  | TextMessageEvent
  | Tombstone
  | UserBannedEvent
  deriving DecidableEq, Repr

/-- String value of each MessageTypes member, as in the source enum. -/
def MessageTypes.value : MessageTypes → String
  | .ChatEndedEvent => "chatEndedEvent"
  | .MessageDeletedEvent => "messageDeletedEvent"
  | .NewSponsorEvent => "newSponsorEvent"
  | .SponsorOnlyModeEndedEvent => "sponsorOnlyModeEndedEvent"
  | .SponsorOnlyModeStartedEvent => "sponsorOnlyModeStartedEvent"
  | .MemberMilestoneChatEvent => "memberMilestoneChatEvent"
  | .SuperChatEvent => "superChatEvent"
  | .SuperStickerEvent => "superStickerEvent"
  | .TextMessageEvent => "textMessageEvent"
  | .Tombstone => "tombstone"
  | .UserBannedEvent => "userBannedEvent"

/-- The eleven enumerated message-type strings of the MessageTypes enum. -/
def messageTypeValues : List String :=
  [MessageTypes.ChatEndedEvent.value,
   MessageTypes.MessageDeletedEvent.value,
   MessageTypes.NewSponsorEvent.value,
   MessageTypes.SponsorOnlyModeEndedEvent.value,
   MessageTypes.SponsorOnlyModeStartedEvent.value,
   MessageTypes.MemberMilestoneChatEvent.value,
   MessageTypes.SuperChatEvent.value,
   MessageTypes.SuperStickerEvent.value,
   MessageTypes.TextMessageEvent.value,
   MessageTypes.Tombstone.value,
   MessageTypes.UserBannedEvent.value]

/-- Stream dataclass from `src/chatto/stream.py` (field values only; the
resolution classmethods are embedded separately below). -/
structure Stream where
  id : String
  chat_id : String
  start_time : Timestamp
  deriving DecidableEq, Repr

/-- Message dataclass from `src/chatto/message.py`. The `type` field is
`Option MessageTypes` because `Message.get_type` falls through to Python
`None` on an unrecognised string. -/
structure Message where
  id : String
  type : Option MessageTypes
  stream : Stream
  channel : Channel
  published_at : Timestamp
  content : String
  deriving DecidableEq, Repr

/-- Embeds `Message.get_type`: the chain of `if` statements returning the
matching member, falling through to `None` (here `none`) when no value
matches. -/
def Message.get_type (type : String) : Option MessageTypes :=
  if type = MessageTypes.ChatEndedEvent.value then some MessageTypes.ChatEndedEvent
  else if type = MessageTypes.MessageDeletedEvent.value then some MessageTypes.MessageDeletedEvent
  else if type = MessageTypes.NewSponsorEvent.value then some MessageTypes.NewSponsorEvent
  else if type = MessageTypes.SponsorOnlyModeEndedEvent.value then some MessageTypes.SponsorOnlyModeEndedEvent
  else if type = MessageTypes.SponsorOnlyModeStartedEvent.value then some MessageTypes.SponsorOnlyModeStartedEvent
  else if type = MessageTypes.MemberMilestoneChatEvent.value then some MessageTypes.MemberMilestoneChatEvent
  else if type = MessageTypes.SuperChatEvent.value then some MessageTypes.SuperChatEvent
  else if type = MessageTypes.SuperStickerEvent.value then some MessageTypes.SuperStickerEvent
  else if type = MessageTypes.TextMessageEvent.value then some MessageTypes.TextMessageEvent
  else if type = MessageTypes.Tombstone.value then some MessageTypes.Tombstone
  else if type = MessageTypes.UserBannedEvent.value then some MessageTypes.UserBannedEvent
  else none

/-- Snippet object of a liveChatMessage resource, as read by
`Message.from_youtube` (keys it reads are modelled as present). -/
structure Snippet where
  type : String
  publishedAt : String
  displayMessage : String
  deriving DecidableEq, Repr

/-- A raw `items[]` element of a liveChat/messages page, as read by
`Message.from_youtube`. -/
structure PollItem where
  id : String
  snippet : Snippet
  authorDetails : AuthorDetails
  deriving DecidableEq, Repr

/-- Embeds `Message.from_youtube` from `src/chatto/message.py`. -/
def Message.from_youtube (item : PollItem) (stream : Stream) : Message :=
  { id := item.id
    type := Message.get_type item.snippet.type
    stream := stream
    channel := Channel.from_author item.authorDetails
    published_at := parse_ts item.snippet.publishedAt
    content := item.snippet.displayMessage }

/-- Secrets dataclass from `src/chatto/secrets.py` (the `path` is kept as
a string). -/
structure Secrets where
  client_id : String
  project_id : String
  auth_uri : String
  token_uri : String
  auth_provider_x509_cert_url : String
  client_secret : String
  redirect_uris : List String
  path : String
  deriving DecidableEq, Repr

/-- A JSON value stored in a token blob (`access_token` is a string,
`expires_in` an integer, and so on). -/
inductive TokenValue where
  | str (s : String)
  | int (n : Int)
  deriving DecidableEq, Repr

/-- A token blob: a Python dict from string keys to token values, modelled
as an insertion-ordered association list with distinct keys maintained by
`tmSet`. -/
abbrev TokenMap := List (String × TokenValue)

/-- Dictionary lookup `m[key]` as an `Option`. -/
def tmLookup : TokenMap → String → Option TokenValue
  | [], _ => none
  | (k, v) :: rest, key => if k = key then some v else tmLookup rest key

/-- Dictionary assignment `m[key] = v` (also the effect of
`m.update({key: v})`): overwrite in place when the key exists, append
otherwise. -/
def tmSet : TokenMap → String → TokenValue → TokenMap
  | [], key, v => [(key, v)]
  | (k, w) :: rest, key, v =>
      if k = key then (k, v) :: rest else (k, w) :: tmSet rest key v

/-- The top-level `error` envelope of a GET response body:
`{code: int, errors: [{message: str}, ...]}` with `errors` carrying the
message strings. -/
structure ErrorEnvelope where
  code : Int
  errors : List String
  deriving DecidableEq, Repr

/-- Decoded body of a `liveChat/messages` GET response. Keys other than
`error` are `Option` because the poll loop reads them with `[]` access,
which raises `KeyError` when they are absent. -/
structure PollResponse where
  error : Option ErrorEnvelope
  items : Option (List PollItem)
  nextPageToken : Option String
  pollingIntervalMillis : Option Nat
  deriving DecidableEq, Repr

/-- Events from `src/chatto/events.py`, one constructor per Event
subclass, carrying that subclass's dataclass fields. -/
inductive Event where
  | readyEvent
  | messageCreatedEvent (message : Message)
  | streamFetchedEvent (stream : Stream)
  | chatPolledEvent (data : PollResponse)
  | messageSentEvent (message : Message)
  | authorisedEvent (secrets : Secrets) (tokens : TokenMap)
  deriving DecidableEq, Repr

/-- Runtime class of an event: the key of the `callbacks` defaultdict. -/
inductive EventType where
  | readyEvent
  | messageCreatedEvent
  | streamFetchedEvent
  | chatPolledEvent
  | messageSentEvent
  | authorisedEvent
  deriving DecidableEq, Repr

/-- Maps an event to its runtime class (`event.__class__`). -/
def Event.etype : Event → EventType
  | .readyEvent => EventType.readyEvent
  | .messageCreatedEvent _ => EventType.messageCreatedEvent
  | .streamFetchedEvent _ => EventType.streamFetchedEvent
  | .chatPolledEvent _ => EventType.chatPolledEvent
  | .messageSentEvent _ => EventType.messageSentEvent
  | .authorisedEvent _ _ => EventType.authorisedEvent

/-- A subscribed callback: its name plus, abstracting its body, the
predicate telling on which events its invocation raises an exception. -/
structure Callback where
  name : String
  raises : Event → Bool

/-- EventHandler state from `src/chatto/events.py`: the optional event
queue (`_queue` is unset until `create_queue` runs, read back through the
`queue` property as `None`) and the callbacks table (`defaultdict(list)`,
modelled as a total function defaulting to `[]`). -/
structure EventHandler where
  queue : Option (List Event)
  callbacks : EventType → List Callback

/-- A fresh `EventHandler()`: no queue, no callbacks. -/
def EventHandler.new : EventHandler :=
  { queue := none, callbacks := fun _ => [] }

/-- Embeds `EventHandler.create_queue`: warn (returned boolean) when a
queue already exists, then unconditionally bind `self._queue` to a fresh
empty queue. An `asyncio.Queue` instance is always truthy, so the `if
self.queue:` test is exactly `queue.isSome`. -/
def EventHandler.create_queue (h : EventHandler) : EventHandler × Bool :=
  ({ h with queue := some [] }, h.queue.isSome)

/-- Embeds `EventHandler.dispatch`: raise `NoEventQueue` when the queue is
missing; otherwise construct the event from the constructor and its
arguments (`event = event_type(*args)`), enqueue that value, and return
it. -/
def EventHandler.dispatch {α : Type} (h : EventHandler) (event_type : α → Event)
    (args : α) : Except PyExc (EventHandler × Event) :=
  match h.queue with
  | none => Except.error (PyExc.noEventQueue "there is no event queue")
  | some q =>
      let event := event_type args
      Except.ok ({ h with queue := some (q ++ [event]) }, event)

/-- Embeds `EventHandler.subscribe`: append each callback, in order, to the
list registered for the event type. -/
def EventHandler.subscribe (h : EventHandler) (event_type : EventType)
    (callbacks : List Callback) : EventHandler :=
  { h with
    callbacks := fun t =>
      if t = event_type then h.callbacks t ++ callbacks else h.callbacks t }

/-- One entry of the observable behaviour of `process`: a callback
invocation, or an exception caught (and logged) by the `except` clause. -/
inductive LogEntry where
  | invoked (cb : String) (event : Event)
  | caught (event : Event)
  deriving DecidableEq, Repr

/-- Runs the `for cb in self.callbacks[event.__class__]` loop of
`process` on one event: callbacks run in registration order; a raising
callback is itself invoked, but the exception leaves the loop, so the
callbacks after it are never invoked. Returns the invocation log and
whether an exception escaped the loop. -/
def runCallbacks : List Callback → Event → List LogEntry × Bool
  | [], _ => ([], false)
  | cb :: rest, event =>
      if cb.raises event then ([LogEntry.invoked cb.name event], true)
      else
        let (l, exc) := runCallbacks rest event
        (LogEntry.invoked cb.name event :: l, exc)

/-- One pass of the `while True:` body of `process` on a dequeued event:
run its callbacks; an escaping exception is caught by the `except` clause
and logged. -/
def processEvent (callbacks : EventType → List Callback) (event : Event) :
    List LogEntry :=
  let (l, exc) := runCallbacks (callbacks event.etype) event
  l ++ if exc then [LogEntry.caught event] else []

/-- Runs the `while True:` loop of `process` until the queue is drained
(the real loop then blocks on `queue.get()`; every claim is about the
events already queued). -/
def processAll (callbacks : EventType → List Callback) : List Event → List LogEntry
  | [] => []
  | event :: rest => processEvent callbacks event ++ processAll callbacks rest

/-- Embeds `EventHandler.process`: raise `NoEventQueue` when the queue is
missing; otherwise drain the queue, producing the observable log. -/
def EventHandler.process (h : EventHandler) : Except PyExc (List LogEntry) :=
  match h.queue with
  | none => Except.error (PyExc.noEventQueue "there is no event queue")
  | some q => Except.ok (processAll h.callbacks q)

/-- Embeds `YouTubeBot.make_request` (`src/chatto/youtube.py`): decode the
body, and if an `error` envelope is present raise
`HTTPError(err["code"], err["errors"][0]["message"])` before any other
field is read (`[0]` on an empty `errors` list is an `IndexError`);
otherwise return the decoded body unchanged. -/
def make_request (resp : PollResponse) : Except PyExc PollResponse :=
  match resp.error with
  | some err =>
      match err.errors with
      | msg :: _ => Except.error (PyExc.httpError err.code msg)
      | [] => Except.error (PyExc.indexError 0)
  | none => Except.ok resp

/-- Runs the `for item in new_items:` loop of `poll_for_messages`: build
`Message.from_youtube(item, stream)` and dispatch a `MessageCreatedEvent`
for each item in page order. Returns the handler state reached together
with the first exception, if any (an exception leaves the already
dispatched events on the queue). -/
def dispatch_messages (stream : Stream) :
    EventHandler → List PollItem → EventHandler × Option PyExc
  | h, [] => (h, none)
  | h, item :: rest =>
      match h.dispatch Event.messageCreatedEvent (Message.from_youtube item stream) with
      | Except.error e => (h, some e)
      | Except.ok (h1, _) => dispatch_messages stream h1 rest

/-- One iteration of the `try:` body of `poll_for_messages`
(`src/chatto/youtube.py`): request the page, dispatch `ChatPolledEvent`
with the decoded payload, and when the page has items and the page token
held before the call was non-empty, dispatch one `MessageCreatedEvent`
per item in page order; then commit `page_token = data["nextPageToken"]`
and only afterwards read `pollingIntervalMillis`. Returns the handler
state and the page-token state the loop variables hold when the body
finishes or the exception escapes — assignments already executed survive
a later exception, so a failure on the `pollingIntervalMillis` read
leaves the advanced token in place — together with the polling interval
in milliseconds or the exception. -/
def poll_iteration (stream : Stream) (h : EventHandler) (page_token : String)
    (resp : PollResponse) : EventHandler × String × Except PyExc Nat :=
  match make_request resp with
  | Except.error e => (h, page_token, Except.error e)
  | Except.ok data =>
      match h.dispatch Event.chatPolledEvent data with
      | Except.error e => (h, page_token, Except.error e)
      | Except.ok (h1, _) =>
          match getKey data.items "items" with
          | Except.error e => (h1, page_token, Except.error e)
          | Except.ok new_items =>
              let (h2, exc) :=
                if new_items ≠ [] ∧ page_token ≠ "" then
                  dispatch_messages stream h1 new_items
                else (h1, none)
              match exc with
              | some e => (h2, page_token, Except.error e)
              | none =>
                  match getKey data.nextPageToken "nextPageToken" with
                  | Except.error e => (h2, page_token, Except.error e)
                  | Except.ok next =>
                      match getKey data.pollingIntervalMillis "pollingIntervalMillis" with
                      | Except.error e => (h2, next, Except.error e)
                      | Except.ok ms => (h2, next, Except.ok ms)

/-- Fixed retry delay of the poll loop's `except` clause, in milliseconds
(`await asyncio.sleep(5)`). -/
def retry_delay_ms : Nat := 5000

/-- Outcome of one turn of the `while True:` loop of
`poll_for_messages`. -/
inductive StepResult where
  | terminated (h : EventHandler)
  | next (h : EventHandler) (page_token : String) (sleep_ms : Nat)

/-- One turn of the `while True:` loop of `poll_for_messages`, including
its `except` clause: on success advance the cursor and sleep the
server-supplied interval; on an `HTTPError` with a 4xx code
(`400 <= exc.code <= 499`), return (terminating the loop); on any other
exception, retry after the fixed 5-second delay with the page-token state
the loop variable holds when the exception escapes (the `except` clause
does not touch `page_token`, so an assignment already committed inside
the `try` body stays in effect). -/
def poll_step (stream : Stream) (h : EventHandler) (page_token : String)
    (resp : PollResponse) : StepResult :=
  match poll_iteration stream h page_token resp with
  | (h1, tok1, Except.ok ms) => StepResult.next h1 tok1 ms
  | (h1, tok1, Except.error exc) =>
      match exc with
      | PyExc.httpError code _ =>
          if 400 ≤ code ∧ code ≤ 499 then StepResult.terminated h1
          else StepResult.next h1 tok1 retry_delay_ms
      | _ => StepResult.next h1 tok1 retry_delay_ms

/-- Page token a step resumes with (`none` when the loop terminated). -/
def StepResult.resume_token : StepResult → Option String
  | StepResult.terminated _ => none
  | StepResult.next _ tok _ => some tok

/-- Finite run of the poll loop over a trace of server responses, one per
request issued. Returns the final handler, the final page token, the
sleeps performed (in milliseconds), and whether the loop terminated
through the 4xx branch before consuming the whole trace. -/
def poll_loop (stream : Stream) :
    EventHandler → String → List PollResponse →
    EventHandler × String × List Nat × Bool
  | h, page_token, [] => (h, page_token, [], false)
  | h, page_token, resp :: rest =>
      match poll_step stream h page_token resp with
      | StepResult.terminated h1 => (h1, page_token, [], true)
      | StepResult.next h1 next ms =>
          let (hf, tf, sleeps, term) := poll_loop stream h1 next rest
          (hf, tf, ms :: sleeps, term)

/-- Embeds `YouTubeBot.poll_for_messages`: the poll loop started with the
empty sentinel page token. -/
def poll_for_messages (stream : Stream) (h : EventHandler)
    (resps : List PollResponse) : EventHandler × String × List Nat × Bool :=
  poll_loop stream h "" resps

/-- Detail object `items[0].liveStreamingDetails` of a `/videos`
response: `activeLiveChatId` is read with `.get(..., None)`,
`actualStartTime` with `[]` access. -/
structure LiveStreamingDetails where
  activeLiveChatId : Option String
  actualStartTime : Option String
  deriving DecidableEq, Repr

/-- An `items[]` element of a `/videos` response. -/
structure VideoItem where
  liveStreamingDetails : Option LiveStreamingDetails
  deriving DecidableEq, Repr

/-- Decoded body of a `/videos` GET response. -/
structure VideosResponse where
  error : Option ErrorEnvelope
  items : Option (List VideoItem)
  deriving DecidableEq, Repr

/-- Embeds `Stream.from_id` (`src/chatto/stream.py`), with the
`session.get` replaced by the decoded response body: raise `HTTPError` on
an error envelope; read `items[0]["liveStreamingDetails"]`; raise
`ChannelNotLive` when `activeLiveChatId` is absent or empty (falsy);
otherwise construct the `Stream`. -/
def Stream.from_id (stream_id : String) (resp : VideosResponse) :
    Except PyExc Stream :=
  match resp.error with
  | some err =>
      match err.errors with
      | msg :: _ => Except.error (PyExc.httpError err.code msg)
      | [] => Except.error (PyExc.indexError 0)
  | none =>
      match resp.items with
      | none => Except.error (PyExc.keyError "items")
      | some items =>
          match items with
          | [] => Except.error (PyExc.indexError 0)
          | first :: _ =>
              match first.liveStreamingDetails with
              | none => Except.error (PyExc.keyError "liveStreamingDetails")
              | some streaming_details =>
                  let chat_id := streaming_details.activeLiveChatId.getD ""
                  if chat_id = "" then
                    Except.error (PyExc.channelNotLive "the stream has no active chat ID")
                  else
                    match streaming_details.actualStartTime with
                    | none => Except.error (PyExc.keyError "actualStartTime")
                    | some start_time =>
                        Except.ok { id := stream_id, chat_id := chat_id,
                                    start_time := parse_ts start_time }

/-- Nested `id` object of a `/search` result item. -/
structure SearchId where
  videoId : Option String
  deriving DecidableEq, Repr

/-- An `items[]` element of a `/search` response. -/
structure SearchItem where
  id : Option SearchId
  deriving DecidableEq, Repr

/-- Decoded body of a `/search` GET response. -/
structure SearchResponse where
  error : Option ErrorEnvelope
  items : Option (List SearchItem)
  deriving DecidableEq, Repr

/-- Embeds `Stream.from_channel_id` (`src/chatto/stream.py`): raise
`HTTPError` on an error envelope; raise `ChannelNotLive` when the search
returned no items; otherwise take `items[0]["id"]["videoId"]` and
delegate to `Stream.from_id` (whose `/videos` response is the second
argument). -/
def Stream.from_channel_id (sresp : SearchResponse) (vresp : VideosResponse) :
    Except PyExc Stream :=
  match sresp.error with
  | some err =>
      match err.errors with
      | msg :: _ => Except.error (PyExc.httpError err.code msg)
      | [] => Except.error (PyExc.indexError 0)
  | none =>
      match sresp.items with
      | none => Except.error (PyExc.keyError "items")
      | some items =>
          match items with
          | [] => Except.error (PyExc.channelNotLive "the provided channel is not live")
          | first :: _ =>
              match first.id with
              | none => Except.error (PyExc.keyError "id")
              | some idObj =>
                  match idObj.videoId with
                  | none => Except.error (PyExc.keyError "videoId")
                  | some stream_id => Stream.from_id stream_id vresp

/-- Response to a token-endpoint POST: aiohttp's `r.ok` flag and the
decoded JSON body. -/
structure PostResponse where
  ok : Bool
  json : TokenMap
  deriving DecidableEq, Repr

/-- Embeds `OAuthMixin._refresh_tokens` (`src/chatto/oauth.py`): read
`tokens["refresh_token"]` to build the refresh POST data; when the POST
response is not OK, return the empty dict; otherwise re-insert the input
mapping's `refresh_token` into the response JSON
(`data.update({"refresh_token": tokens["refresh_token"]})`) and return
it. -/
def _refresh_tokens (resp : PostResponse) (tokens : TokenMap) :
    Except PyExc TokenMap := do
  let rt ←
    match tmLookup tokens "refresh_token" with
    | some v => Except.ok v
    | none => Except.error (PyExc.keyError "refresh_token")
  if resp.ok then Except.ok (tmSet resp.json "refresh_token" rt)
  else Except.ok []

/-- Externally observable actions of `authorise`, in program order. -/
inductive AuthAction where
  | introspect
  | refreshPost
  | interactiveExchange
  | persist (tokens : TokenMap)
  | dispatchAuthorised (tokens : TokenMap)
  deriving DecidableEq, Repr

/-- Embeds `OAuthMixin.set_tokens`: persist the blob to the tokens file
and dispatch an `AuthorisedEvent`. -/
def set_tokens (tokens : TokenMap) : List AuthAction :=
  [AuthAction.persist tokens, AuthAction.dispatchAuthorised tokens]

/-- Environment of `authorise`: the I/O the call can perform, decoded.
`tokens_file` is the on-disk token blob (`none` when `tokens_path` is not
a file); `introspect_expires_in` is the integer `expires_in` reported by
the token-introspection endpoint; `refresh_response` answers the refresh
POST; `fetch_result` is the blob produced by the interactive
authorization-code exchange. -/
structure AuthEnv where
  secrets : Bool
  session : Bool
  tokens_file : Option TokenMap
  introspect_expires_in : Int
  refresh_response : PostResponse
  fetch_result : TokenMap
  deriving Repr

/-- Interactive-exchange path of `authorise` (`_fetch_tokens` followed by
`set_tokens`). -/
def fetch_path (env : AuthEnv) : TokenMap × List AuthAction :=
  (env.fetch_result, AuthAction.interactiveExchange :: set_tokens env.fetch_result)

/-- Embeds `OAuthMixin.authorise` (`src/chatto/oauth.py`): check secrets
and session; when `force` is set or no tokens file exists, run the
interactive exchange and persist. Otherwise load the file, probe the
introspection endpoint with `tokens["access_token"]` and overwrite
`expires_in` with the authoritative value; refresh when that value is
negative; when the blob is then empty (refresh failed), fall back to the
interactive exchange; finally persist through `set_tokens`. Returns the
final token blob and the trace of observable actions. -/
def authorise (env : AuthEnv) (force : Bool) :
    Except PyExc (TokenMap × List AuthAction) :=
  if !env.secrets then
    Except.error (PyExc.noSecrets "you need to provide your secrets before authorising")
  else if !env.session then
    Except.error (PyExc.noSession "there is no active session")
  else
    match env.tokens_file, force with
    | _, true => Except.ok (fetch_path env)
    | none, false => Except.ok (fetch_path env)
    | some file_tokens, false =>
        match tmLookup file_tokens "access_token" with
        | none => Except.error (PyExc.keyError "access_token")
        | some _ =>
            let token_expires_in := env.introspect_expires_in
            let tokens := tmSet file_tokens "expires_in" (TokenValue.int token_expires_in)
            let refreshed : Except PyExc (TokenMap × List AuthAction) :=
              if token_expires_in < 0 then
                match _refresh_tokens env.refresh_response tokens with
                | Except.error e => Except.error e
                | Except.ok t =>
                    Except.ok (t, [AuthAction.introspect, AuthAction.refreshPost])
              else Except.ok (tokens, [AuthAction.introspect])
            match refreshed with
            | Except.error e => Except.error e
            | Except.ok (tokens2, acts) =>
                let fallback :=
                  if tokens2 = [] then (env.fetch_result, [AuthAction.interactiveExchange])
                  else (tokens2, [])
                Except.ok (fallback.1, acts ++ fallback.2 ++ set_tokens fallback.1)

/-- Methods the `Stream` class defines (`src/chatto/stream.py` declares
exactly the classmethods `from_id` and `from_channel_id`; the dataclass
field annotations `id`, `chat_id`, `start_time` create no class
attributes). -/
def streamClassMethods : List String := ["from_id", "from_channel_id"]

/-- Attribute lookup `getattr(Stream, name)`: `AttributeError` when the
class does not define the name. -/
def stream_getattr (name : String) : Except PyExc Unit :=
  if name ∈ streamClassMethods then Except.ok ()
  else Except.error (PyExc.attributeError name)

/-- Embeds `YouTubeBot.fetch_stream_info` (`src/chatto/youtube.py`):
check the session, then evaluate
`Stream.from_youtube(await Stream.fetch_stream_data(...))` (or
`Stream.fetch_active_stream_data` on the channel path). Python resolves
the callable `Stream.from_youtube` first, and that attribute lookup
fails, so everything after the lookups is dead code (marked by the final
thrower, which is unreachable because `stream_getattr "from_youtube"`
always raises). On success the method would produce the stream and the
dispatched `StreamFetchedEvent`. -/
def fetch_stream_info (session : Bool) (stream_id : Option String) :
    Except PyExc (Stream × List Event) := do
  if !session then Except.error (PyExc.noSession "no active session")
  else
    match stream_id with
    | some _ => do
        let _ ← stream_getattr "from_youtube"
        let _ ← stream_getattr "fetch_stream_data"
        Except.error (PyExc.attributeError "unreachable")
    | none => do
        let _ ← stream_getattr "from_youtube"
        let _ ← stream_getattr "fetch_active_stream_data"
        Except.error (PyExc.attributeError "unreachable")

/-- Concrete author-details sample used to instantiate theorems. -/
def sampleAuthor : AuthorDetails :=
  { channelId := "UC123"
    channelUrl := "https://youtube.com/channel/UC123"
    displayName := "Barney"
    profileImageUrl := "https://img.example/avatar.png"
    isVerified := true
    isChatOwner := false
    isChatSponsor := false
    isChatModerator := false }

/-- Concrete stream sample used to instantiate theorems. -/
def sampleStream : Stream :=
  { id := "xyz123", chat_id := "chat123", start_time := "2022-01-01T00:00:00" }

/-- Concrete poll item sample whose snippet type is a recognised value. -/
def sampleItem : PollItem :=
  { id := "msg1"
    snippet :=
      { type := "textMessageEvent"
        publishedAt := "2022-01-01T00:05:00"
        displayMessage := "hello world" }
    authorDetails := sampleAuthor }

/-- Concrete poll item sample whose snippet type is unrecognised. -/
def mysteryItem : PollItem :=
  { id := "msg2"
    snippet :=
      { type := "mysteryEvent"
        publishedAt := "2022-01-01T00:06:00"
        displayMessage := "???" }
    authorDetails := sampleAuthor }

/-- Concrete successful poll page sample used to instantiate theorems. -/
def sampleResp1 : PollResponse :=
  { error := none
    items := some []
    nextPageToken := some "tok1"
    pollingIntervalMillis := some 1000 }

/-- Second concrete poll page sample, distinct from `sampleResp1`. -/
def sampleResp2 : PollResponse :=
  { error := none
    items := some [sampleItem]
    nextPageToken := some "tok2"
    pollingIntervalMillis := some 2000 }

/-- First queued sample event for the process counterexample. -/
def ev1 : Event := Event.chatPolledEvent sampleResp1

/-- Second queued sample event (same runtime class as `ev1`, different
payload). -/
def ev2 : Event := Event.chatPolledEvent sampleResp2

/-- Callback that raises exactly on `ev1`. -/
def cb1 : Callback :=
  { name := "cb1", raises := fun e => decide (e = ev1) }

/-- Callback that never raises. -/
def cb2 : Callback :=
  { name := "cb2", raises := fun _ => false }

/-- Handler with two callbacks subscribed to `ChatPolledEvent` (in order
`cb1`, `cb2`) and two such events queued. -/
def cexHandler : EventHandler :=
  { queue := some [ev1, ev2]
    callbacks := fun t => if t = EventType.chatPolledEvent then [cb1, cb2] else [] }

/-- The log `process` produces on `cexHandler`'s queue. -/
def cexLog : List LogEntry :=
  [LogEntry.invoked "cb1" ev1, LogEntry.caught ev1,
   LogEntry.invoked "cb1" ev2, LogEntry.invoked "cb2" ev2]

/-- Handler holding one queued event, for the create_queue counterexample. -/
def oneEventHandler : EventHandler :=
  { queue := some [Event.readyEvent], callbacks := fun _ => [] }

/-- Handler with a created, still empty queue and no callbacks. -/
def freshQueueHandler : EventHandler :=
  { queue := some [], callbacks := fun _ => [] }

/-- Concrete poll page with three items, for iteration witnesses. -/
def threeItemResp : PollResponse :=
  { error := none
    items := some [sampleItem, mysteryItem, sampleItem]
    nextPageToken := some "tok3"
    pollingIntervalMillis := some 1500 }

/-- Concrete poll page carrying a 403 error envelope and no other keys. -/
def errorResp403 : PollResponse :=
  { error := some { code := 403, errors := ["quota exceeded"] }
    items := none
    nextPageToken := none
    pollingIntervalMillis := none }

/-- Concrete poll page carrying a 503 error envelope and no other keys. -/
def errorResp503 : PollResponse :=
  { error := some { code := 503, errors := ["backend down"] }
    items := none
    nextPageToken := none
    pollingIntervalMillis := none }

/-- Concrete poll page whose `nextPageToken` is present but whose
`pollingIntervalMillis` key is absent: the iteration commits the token
advance and then raises `KeyError`. -/
def partialPollResp : PollResponse :=
  { error := none
    items := some []
    nextPageToken := some "t2"
    pollingIntervalMillis := none }

/-- Concrete on-disk token blob sample. -/
def sampleFileTokens : TokenMap :=
  [("access_token", TokenValue.str "old-access"),
   ("refresh_token", TokenValue.str "refresh-1"),
   ("expires_in", TokenValue.int 3599)]

/-- Concrete refresh-response body sample (no `refresh_token` key, as the
refresh grant omits it). -/
def sampleRefreshJson : TokenMap :=
  [("access_token", TokenValue.str "new-access"),
   ("expires_in", TokenValue.int 3599)]

/-- Concrete blob produced by the interactive exchange in auth samples. -/
def sampleFetchResult : TokenMap :=
  [("access_token", TokenValue.str "fetched-access"),
   ("refresh_token", TokenValue.str "refresh-2"),
   ("expires_in", TokenValue.int 3599)]

/-- Auth environment sample: expired on-disk token, refresh succeeds. -/
def authEnvRefreshOk : AuthEnv :=
  { secrets := true
    session := true
    tokens_file := some sampleFileTokens
    introspect_expires_in := -42
    refresh_response := { ok := true, json := sampleRefreshJson }
    fetch_result := sampleFetchResult }

/-- Auth environment sample: expired on-disk token, refresh POST fails. -/
def authEnvRefreshFail : AuthEnv :=
  { secrets := true
    session := true
    tokens_file := some sampleFileTokens
    introspect_expires_in := -42
    refresh_response := { ok := false, json := [] }
    fetch_result := sampleFetchResult }

/-- Stream details sample lacking an active chat id. -/
def notLiveDetails : LiveStreamingDetails :=
  { activeLiveChatId := none
    actualStartTime := some "2022-01-01T00:00:00" }

/-- Video-details response sample whose stream details lack an active
chat id. -/
def notLiveVideosResp : VideosResponse :=
  { error := none
    items := some [{ liveStreamingDetails := some notLiveDetails }] }

/-- Search response sample with an empty items list. -/
def emptySearchResp : SearchResponse :=
  { error := none, items := some [] }

/-! ## Helper lemmas -/

theorem tmLookup_tmSet_self (m : TokenMap) (k : String) (v : TokenValue) :
    tmLookup (tmSet m k v) k = some v := by
  induction m with
  | nil => simp [tmSet, tmLookup]
  | cons hd tl ih =>
      obtain ⟨k0, v0⟩ := hd
      by_cases hk : k0 = k
      · simp [tmSet, tmLookup, hk]
      · simp [tmSet, tmLookup, hk, ih]

theorem except_bind_ok {ε α β : Type} (a : α) (f : α → Except ε β) :
    (Except.ok a : Except ε α) >>= f = f a := rfl

theorem except_bind_error {ε α β : Type} (e : ε) (f : α → Except ε β) :
    (Except.error e : Except ε α) >>= f = Except.error e := rfl

theorem tmLookup_tmSet_ne (m : TokenMap) (k key : String) (v : TokenValue)
    (hne : k ≠ key) : tmLookup (tmSet m key v) k = tmLookup m k := by
  have hne2 : ¬(key = k) := Ne.symm hne
  induction m with
  | nil => simp [tmSet, tmLookup, hne2]
  | cons hd tl ih =>
      obtain ⟨k0, v0⟩ := hd
      by_cases hk : k0 = key
      · subst hk
        simp [tmSet, tmLookup, hne2]
      · by_cases hk2 : k0 = k
        · subst hk2
          simp [tmSet, tmLookup, hk]
        · simp [tmSet, tmLookup, hk, hk2, ih]

theorem tmSet_ne_nil (m : TokenMap) (k : String) (v : TokenValue) :
    tmSet m k v ≠ [] := by
  cases m with
  | nil => simp [tmSet]
  | cons hd tl =>
      obtain ⟨k0, v0⟩ := hd
      by_cases hk : k0 = k <;> simp [tmSet, hk]

theorem dispatch_messages_queue (stream : Stream) (items : List PollItem) :
    ∀ (h : EventHandler) (q : List Event), h.queue = some q →
    dispatch_messages stream h items =
      ({ h with queue := some (q ++ items.map fun item =>
          Event.messageCreatedEvent (Message.from_youtube item stream)) }, none) := by
  induction items with
  | nil =>
      intro h q hq
      cases h with
      | mk qu cb =>
          simp only [EventHandler.queue] at hq
          subst hq
          simp [dispatch_messages]
  | cons item rest ih =>
      intro h q hq
      obtain ⟨qu, cb⟩ := h
      dsimp only at hq
      subst hq
      simp only [dispatch_messages, EventHandler.dispatch]
      rw [ih _ (q ++ [Event.messageCreatedEvent (Message.from_youtube item stream)]) rfl]
      simp

theorem runCallbacks_split (event : Event) (raiser : Callback) (post : List Callback)
    (hraise : raiser.raises event = true) :
    ∀ (pre : List Callback), (∀ cb ∈ pre, cb.raises event = false) →
    runCallbacks (pre ++ raiser :: post) event =
      ((pre.map fun cb => LogEntry.invoked cb.name event) ++
        [LogEntry.invoked raiser.name event], true) := by
  intro pre
  induction pre with
  | nil => intro _; simp [runCallbacks, hraise]
  | cons cb rest ih =>
      intro hpre
      have hcb : cb.raises event = false := hpre cb (by simp)
      have hrest : ∀ c ∈ rest, c.raises event = false := fun c hc => hpre c (by simp [hc])
      simp [runCallbacks, hcb, ih hrest]

/-! ## Claim theorems -/

/-- C9: for every string that is not one of the eleven enumerated
message-type values, `Message.get_type` returns `none` — it neither
raises nor returns an enumeration member — and `Message.from_youtube`
applied to an item with such a snippet type constructs a `Message` whose
`type` field is `none` instead of failing. -/
theorem get_type_unknown_returns_none (s : String) (hs : s ∉ messageTypeValues) :
    Message.get_type s = none ∧
    ∀ (item : PollItem) (stream : Stream), item.snippet.type = s →
      (Message.from_youtube item stream).type = none := by
  simp only [messageTypeValues, MessageTypes.value, List.mem_cons,
    List.not_mem_nil, or_false, not_or] at hs
  obtain ⟨h1, h2, h3, h4, h5, h6, h7, h8, h9, h10, h11⟩ := hs
  have hg : Message.get_type s = none := by
    simp [Message.get_type, MessageTypes.value,
      h1, h2, h3, h4, h5, h6, h7, h8, h9, h10, h11]
  exact ⟨hg, fun item stream hty => by simp [Message.from_youtube, hty, hg]⟩

/-- Witness for C9 at the concrete unknown string "mysteryEvent" and the
concrete item `mysteryItem`. -/
theorem get_type_unknown_returns_none_witness :
    Message.get_type "mysteryEvent" = none ∧
    (Message.from_youtube mysteryItem sampleStream).type = none :=
  ⟨(get_type_unknown_returns_none "mysteryEvent" (by decide)).1,
   (get_type_unknown_returns_none "mysteryEvent" (by decide)).2 mysteryItem sampleStream rfl⟩

/-- C10: with a `refresh_token` key in the input blob, a successful
refresh POST returns the response JSON with the input's `refresh_token`
value re-inserted — so the returned mapping maps `refresh_token` to
exactly the input's value — and a failed POST returns the empty
mapping. -/
theorem refresh_tokens_refresh_token_key (tokens : TokenMap) (rt : TokenValue)
    (resp : PostResponse) (hrt : tmLookup tokens "refresh_token" = some rt) :
    (resp.ok = true →
      _refresh_tokens resp tokens = Except.ok (tmSet resp.json "refresh_token" rt) ∧
      tmLookup (tmSet resp.json "refresh_token" rt) "refresh_token" = some rt) ∧
    (resp.ok = false → _refresh_tokens resp tokens = Except.ok []) := by
  constructor
  · intro hok
    exact ⟨by simp [_refresh_tokens, hrt, hok, except_bind_ok],
           tmLookup_tmSet_self _ _ _⟩
  · intro hok
    simp [_refresh_tokens, hrt, hok, except_bind_ok]

/-- Witness for C10 at the concrete blob `sampleFileTokens` and a
successful refresh response. -/
theorem refresh_tokens_refresh_token_key_witness :
    _refresh_tokens { ok := true, json := sampleRefreshJson } sampleFileTokens =
      Except.ok (tmSet sampleRefreshJson "refresh_token" (TokenValue.str "refresh-1")) ∧
    tmLookup (tmSet sampleRefreshJson "refresh_token" (TokenValue.str "refresh-1"))
      "refresh_token" = some (TokenValue.str "refresh-1") :=
  (refresh_tokens_refresh_token_key sampleFileTokens (TokenValue.str "refresh-1")
      { ok := true, json := sampleRefreshJson } rfl).1 rfl

/-- C8: with an active session, `fetch_stream_info` fails with an
attribute-lookup error (on `from_youtube`, the callable Python resolves
first) whether or not an explicit stream id is given, so no `Stream` is
produced and no `StreamFetchedEvent` is dispatched (the error carries
neither); and none of the three names it needs is among the methods the
`Stream` class defines. -/
theorem fetch_stream_info_attribute_error (stream_id : Option String) :
    fetch_stream_info true stream_id =
      Except.error (PyExc.attributeError "from_youtube") ∧
    streamClassMethods.contains "from_youtube" = false ∧
    streamClassMethods.contains "fetch_stream_data" = false ∧
    streamClassMethods.contains "fetch_active_stream_data" = false := by
  refine ⟨?_, by decide, by decide, by decide⟩
  cases stream_id <;> rfl

/-- C7: a handler on which `create_queue` has never run (its queue is
absent, as in a fresh `EventHandler`) rejects both `dispatch` (enqueuing
nothing: the error result carries no state) and `process` with
`NoEventQueue`; once the queue exists, `dispatch` constructs the event
from its constructor and arguments, appends exactly that value to the
queue, and returns it. -/
theorem dispatch_process_require_queue :
    EventHandler.new.queue = none ∧
    (∀ (h : EventHandler), h.queue = none →
      (∀ (α : Type) (event_type : α → Event) (args : α),
        h.dispatch event_type args =
          Except.error (PyExc.noEventQueue "there is no event queue")) ∧
      h.process = Except.error (PyExc.noEventQueue "there is no event queue")) ∧
    (∀ (h : EventHandler) (q : List Event) (α : Type) (event_type : α → Event) (args : α),
      h.queue = some q →
      h.dispatch event_type args =
        Except.ok ({ h with queue := some (q ++ [event_type args]) }, event_type args)) := by
  refine ⟨rfl, ?_, ?_⟩
  · intro h hq
    constructor
    · intro α event_type args
      simp [EventHandler.dispatch, hq]
    · simp [EventHandler.process, hq]
  · intro h q α event_type args hq
    simp [EventHandler.dispatch, hq]

/-- Witness for C7 on a fresh handler and on a handler with a created,
empty queue. -/
theorem dispatch_process_require_queue_witness :
    EventHandler.new.dispatch (fun _ : Unit => Event.readyEvent) () =
      Except.error (PyExc.noEventQueue "there is no event queue") ∧
    EventHandler.new.process =
      Except.error (PyExc.noEventQueue "there is no event queue") ∧
    freshQueueHandler.dispatch (fun _ : Unit => Event.readyEvent) () =
      Except.ok ({ freshQueueHandler with queue := some [Event.readyEvent] },
        Event.readyEvent) :=
  ⟨(dispatch_process_require_queue.2.1 EventHandler.new rfl).1 Unit _ (),
   (dispatch_process_require_queue.2.1 EventHandler.new rfl).2,
   by
     have h := dispatch_process_require_queue.2.2 freshQueueHandler []
       Unit (fun _ : Unit => Event.readyEvent) () rfl
     simpa using h⟩

/-- C2 counterexample: on a handler whose queue holds one event, a second
`create_queue` call empties the queue, so the state afterwards does not
still hold that event — refuting "leaves the existing queue object and
its queued contents unchanged". -/
theorem create_queue_counterexample :
    oneEventHandler.create_queue.1.queue = some [] ∧
    (oneEventHandler.create_queue.1.queue = some [Event.readyEvent]) = False := by
  constructor
  · rfl
  · simp [EventHandler.create_queue]

/-- C2 (amended): a second `create_queue` call on a handler that already
has a queue logs a warning (the returned flag) and does not raise, but it
does not leave the existing queue intact: it installs a fresh empty
queue, discarding the queued events, leaving the callbacks unchanged. -/
theorem create_queue_second_call_replaces (h : EventHandler) (q : List Event)
    (hq : h.queue = some q) :
    h.create_queue = (({ h with queue := some [] } : EventHandler), true) := by
  simp [EventHandler.create_queue, hq]

/-- Witness for the amended C2 on the concrete handler holding one queued
event. -/
theorem create_queue_second_call_replaces_witness :
    oneEventHandler.create_queue =
      (({ oneEventHandler with queue := some [] } : EventHandler), true) :=
  create_queue_second_call_replaces oneEventHandler [Event.readyEvent] rfl

/-- C1 counterexample: with `cexHandler` — callbacks `cb1` then `cb2`
subscribed to `ChatPolledEvent`, two such events queued, `cb1` raising on
the first — `process` never invokes `cb2` on the first event, refuting
"every other callback subscribed to that same event still runs". -/
theorem process_skips_second_callback_counterexample :
    cexHandler.process = Except.ok cexLog ∧
    cexLog.contains (LogEntry.invoked "cb2" ev1) = false := by
  constructor
  · rfl
  · rfl

/-- C1 (amended): an exception raised by a callback during `process` is
caught and logged (the `caught` entry), `process` does not abort (it
returns through the ok branch) and every subsequent queued event is still
dequeued and processed — but the callbacks registered after the raising
one for that same event are skipped: the log for that event is exactly
the non-raising prefix, then the raising callback, then the caught
entry. -/
theorem process_callback_exception_isolated
    (cbs : EventType → List Callback) (event : Event) (rest : List Event)
    (pre post : List Callback) (raiser : Callback)
    (hcbs : cbs event.etype = pre ++ raiser :: post)
    (hpre : ∀ cb ∈ pre, cb.raises event = false)
    (hraise : raiser.raises event = true) :
    EventHandler.process { queue := some (event :: rest), callbacks := cbs } =
      Except.ok
        (((pre.map fun cb => LogEntry.invoked cb.name event) ++
          [LogEntry.invoked raiser.name event, LogEntry.caught event]) ++
          processAll cbs rest) := by
  simp only [EventHandler.process, processAll, processEvent, hcbs,
    runCallbacks_split event raiser post hraise pre hpre]
  simp

/-- Witness for the amended C1: `cb1` raises on the first of two queued
events; `process` logs the caught exception and still processes the
second event (running both callbacks there). -/
theorem process_callback_exception_isolated_witness :
    EventHandler.process { queue := some [ev1, ev2], callbacks := cexHandler.callbacks } =
      Except.ok ([LogEntry.invoked "cb1" ev1, LogEntry.caught ev1] ++
        processAll cexHandler.callbacks [ev2]) := by
  have h := process_callback_exception_isolated cexHandler.callbacks ev1 [ev2]
      [] [cb2] cb1 rfl (by intro cb hcb; simp at hcb) rfl
  simpa using h

theorem from_id_ok_chat_id (stream_id : String) (resp : VideosResponse) (s : Stream)
    (hok : Stream.from_id stream_id resp = Except.ok s) : ¬s.chat_id = "" := by
  unfold Stream.from_id at hok
  repeat' split at hok
  all_goals try simp only [ite_eq_iff] at hok
  all_goals simp_all
  all_goals (obtain ⟨hc, rfl⟩ := hok; simpa using hc)

theorem from_channel_id_ok_chat_id (sresp : SearchResponse) (vresp : VideosResponse)
    (s : Stream) (hok : Stream.from_channel_id sresp vresp = Except.ok s) :
    ¬s.chat_id = "" := by
  unfold Stream.from_channel_id at hok
  repeat' split at hok
  all_goals first
    | exact from_id_ok_chat_id _ _ _ hok
    | simp_all

/-- C5: a video-details payload whose stream details lack a non-empty
`activeLiveChatId` makes `Stream.from_id` fail with `ChannelNotLive`
(no `Stream` value constructed); a search payload whose `items` list is
empty makes `Stream.from_channel_id` fail with `ChannelNotLive`; and
every `Stream` either resolution path returns has a non-empty
`chat_id`. -/
theorem stream_resolution_channel_not_live
    (stream_id : String) (resp : VideosResponse) (first : VideoItem)
    (restItems : List VideoItem) (details : LiveStreamingDetails)
    (herr : resp.error = none) (hitems : resp.items = some (first :: restItems))
    (hdet : first.liveStreamingDetails = some details)
    (hchat : details.activeLiveChatId = none ∨ details.activeLiveChatId = some "") :
    Stream.from_id stream_id resp =
      Except.error (PyExc.channelNotLive "the stream has no active chat ID") ∧
    (∀ (sresp : SearchResponse) (vresp : VideosResponse),
      sresp.error = none → sresp.items = some [] →
      Stream.from_channel_id sresp vresp =
        Except.error (PyExc.channelNotLive "the provided channel is not live")) ∧
    (∀ (sid : String) (vresp : VideosResponse) (s : Stream),
      Stream.from_id sid vresp = Except.ok s → ¬s.chat_id = "") ∧
    (∀ (sresp : SearchResponse) (vresp : VideosResponse) (s : Stream),
      Stream.from_channel_id sresp vresp = Except.ok s → ¬s.chat_id = "") := by
  refine ⟨?_, ?_, fun sid vresp s hok => from_id_ok_chat_id sid vresp s hok,
    fun sresp vresp s hok => from_channel_id_ok_chat_id sresp vresp s hok⟩
  · unfold Stream.from_id
    rcases hchat with hc | hc <;> simp [herr, hitems, hdet, hc]
  · intro sresp vresp hserr hsitems
    unfold Stream.from_channel_id
    rw [hserr, hsitems]

/-- Witness for C5 on the concrete not-live payloads. -/
theorem stream_resolution_channel_not_live_witness :
    Stream.from_id "xyz123" notLiveVideosResp =
      Except.error (PyExc.channelNotLive "the stream has no active chat ID") ∧
    Stream.from_channel_id emptySearchResp notLiveVideosResp =
      Except.error (PyExc.channelNotLive "the provided channel is not live") := by
  have h := stream_resolution_channel_not_live "xyz123" notLiveVideosResp
      { liveStreamingDetails := some notLiveDetails } [] notLiveDetails
      rfl rfl rfl (Or.inl rfl)
  exact ⟨h.1, h.2.1 emptySearchResp notLiveVideosResp rfl rfl⟩

/-- C3: in a poll iteration whose fetched page contains items
(`error` absent, `items` present and non-empty), if the page token held
before the request was the initial empty sentinel the queue gains
exactly one `ChatPolledEvent` and zero `MessageCreatedEvent`s; if that
token was non-empty and the page holds k items, the queue gains the
single `ChatPolledEvent` followed by exactly k `MessageCreatedEvent`s in
page-item order. -/
theorem poll_iteration_event_counts
    (stream : Stream) (h : EventHandler) (q : List Event) (page_token : String)
    (resp : PollResponse) (items : List PollItem)
    (hq : h.queue = some q) (herr : resp.error = none)
    (hitems : resp.items = some items) (hne : items ≠ []) :
    (page_token = "" →
      (poll_iteration stream h page_token resp).1.queue =
        some (q ++ [Event.chatPolledEvent resp])) ∧
    (page_token ≠ "" →
      (poll_iteration stream h page_token resp).1.queue =
        some (q ++ Event.chatPolledEvent resp ::
          (items.map fun item =>
            Event.messageCreatedEvent (Message.from_youtube item stream)))) := by
  have hmk : make_request resp = Except.ok resp := by
    simp [make_request, herr]
  have hdisp : h.dispatch Event.chatPolledEvent resp =
      Except.ok
        (({ h with queue := some (q ++ [Event.chatPolledEvent resp]) } : EventHandler),
         Event.chatPolledEvent resp) := by
    simp [EventHandler.dispatch, hq]
  constructor
  · intro htok
    subst htok
    simp only [poll_iteration, hmk, hdisp, hitems, getKey]
    simp only [ne_eq, not_true_eq_false, and_false, if_false]
    cases resp.nextPageToken <;> cases resp.pollingIntervalMillis <;> rfl
  · intro htok
    simp only [poll_iteration, hmk, hdisp, hitems, getKey]
    rw [if_pos ⟨hne, htok⟩]
    rw [dispatch_messages_queue stream items _ (q ++ [Event.chatPolledEvent resp]) rfl]
    cases resp.nextPageToken <;> cases resp.pollingIntervalMillis <;> simp

/-- Witness for C3 on a concrete three-item page: first iteration (empty
sentinel token) dispatches only the `ChatPolledEvent`; with a non-empty
prior token all three `MessageCreatedEvent`s follow in order. -/
theorem poll_iteration_event_counts_witness :
    (poll_iteration sampleStream freshQueueHandler "" threeItemResp).1.queue =
      some [Event.chatPolledEvent threeItemResp] ∧
    (poll_iteration sampleStream freshQueueHandler "prev" threeItemResp).1.queue =
      some (Event.chatPolledEvent threeItemResp ::
        ([sampleItem, mysteryItem, sampleItem].map fun item =>
          Event.messageCreatedEvent (Message.from_youtube item sampleStream))) := by
  have h1 := (poll_iteration_event_counts sampleStream freshQueueHandler [] ""
      threeItemResp [sampleItem, mysteryItem, sampleItem] rfl rfl rfl (by simp)).1 rfl
  have h2 := (poll_iteration_event_counts sampleStream freshQueueHandler [] "prev"
      threeItemResp [sampleItem, mysteryItem, sampleItem] rfl rfl rfl (by simp)).2
      (by simp)
  exact ⟨by simpa using h1, by simpa using h2⟩

/-- C4 counterexample: on a response whose `nextPageToken` is present but
whose `pollingIntervalMillis` key is absent, the `KeyError` is raised
after the source has already committed `page_token =
data["nextPageToken"]` (youtube.py line 284 precedes line 285), so the
retry resumes with the advanced token "t2" and not with the pre-iteration
token "tok" the claim requires. -/
theorem poll_retry_token_counterexample :
    poll_step sampleStream freshQueueHandler "tok" partialPollResp =
      StepResult.next
        ({ freshQueueHandler with
            queue := some [Event.chatPolledEvent partialPollResp] })
        "t2" retry_delay_ms ∧
    (poll_step sampleStream freshQueueHandler "tok" partialPollResp).resume_token ≠
      some "tok" := by
  constructor
  · rfl
  · decide

/-- C4 (amended): a poll response carrying an error envelope makes the
iteration raise `HTTPError` from `make_request` with the envelope's code
and first message, touching neither the handler and token state nor the
`items` or `nextPageToken` keys (the hypotheses put no constraint on
them); a 4xx code then terminates the loop at once, while any other code
retries after the fixed 5-second delay with the pre-iteration page token
intact (the envelope is raised before any assignment runs). In general a
non-4xx exception makes the step retry after 5 seconds with the
page-token state the loop variable holds when the exception escapes —
which is the advanced token when the failure comes after the
`nextPageToken` assignment has committed, as the final conjunct shows for
a response lacking only `pollingIntervalMillis`. -/
theorem poll_error_classification
    (stream : Stream) (h : EventHandler) (page_token : String)
    (resp : PollResponse) (env : ErrorEnvelope) (msg : String)
    (restMsgs : List String)
    (herr : resp.error = some env) (hmsgs : env.errors = msg :: restMsgs) :
    poll_iteration stream h page_token resp =
      (h, page_token, Except.error (PyExc.httpError env.code msg)) ∧
    (400 ≤ env.code ∧ env.code ≤ 499 →
      poll_step stream h page_token resp = StepResult.terminated h ∧
      ∀ (rest : List PollResponse),
        poll_loop stream h page_token (resp :: rest) = (h, page_token, [], true)) ∧
    (¬(400 ≤ env.code ∧ env.code ≤ 499) →
      poll_step stream h page_token resp =
        StepResult.next h page_token retry_delay_ms) ∧
    (∀ (resp2 : PollResponse) (h1 : EventHandler) (tok1 : String) (exc : PyExc),
      poll_iteration stream h page_token resp2 = (h1, tok1, Except.error exc) →
      (∀ (code : Int) (body : String), exc = PyExc.httpError code body →
        ¬(400 ≤ code ∧ code ≤ 499)) →
      poll_step stream h page_token resp2 =
        StepResult.next h1 tok1 retry_delay_ms) ∧
    (∀ (resp2 : PollResponse) (q : List Event) (next : String),
      h.queue = some q → resp2.error = none → resp2.items = some [] →
      resp2.nextPageToken = some next → resp2.pollingIntervalMillis = none →
      poll_iteration stream h page_token resp2 =
        (({ h with queue := some (q ++ [Event.chatPolledEvent resp2]) } : EventHandler),
         next, Except.error (PyExc.keyError "pollingIntervalMillis")) ∧
      poll_step stream h page_token resp2 =
        StepResult.next
          ({ h with queue := some (q ++ [Event.chatPolledEvent resp2]) }) next
          retry_delay_ms) := by
  have hiter : poll_iteration stream h page_token resp =
      (h, page_token, Except.error (PyExc.httpError env.code msg)) := by
    simp [poll_iteration, make_request, herr, hmsgs]
  refine ⟨hiter, ?_, ?_, ?_, ?_⟩
  · intro h4
    have hstep : poll_step stream h page_token resp = StepResult.terminated h := by
      simp [poll_step, hiter, h4]
    exact ⟨hstep, fun rest => by simp [poll_loop, hstep]⟩
  · intro h4
    simp [poll_step, hiter, h4]
  · intro resp2 h1 tok1 exc hiter2 hnot
    cases exc with
    | httpError code body =>
        have := hnot code body rfl
        simp [poll_step, hiter2, this]
    | _ => simp [poll_step, hiter2]
  · intro resp2 q next hq herr2 hitems2 hnext hms
    have hmk2 : make_request resp2 = Except.ok resp2 := by
      simp [make_request, herr2]
    have hdisp2 : h.dispatch Event.chatPolledEvent resp2 =
        Except.ok
          (({ h with queue := some (q ++ [Event.chatPolledEvent resp2]) } : EventHandler),
           Event.chatPolledEvent resp2) := by
      simp [EventHandler.dispatch, hq]
    have hiter2 : poll_iteration stream h page_token resp2 =
        (({ h with queue := some (q ++ [Event.chatPolledEvent resp2]) } : EventHandler),
         next, Except.error (PyExc.keyError "pollingIntervalMillis")) := by
      simp [poll_iteration, hmk2, hdisp2, hitems2, hnext, hms, getKey]
    exact ⟨hiter2, by simp [poll_step, hiter2]⟩

/-- Witness for the amended C4 on concrete inputs: a 403 envelope (loop
terminates), a 503 envelope (retry with the pre-iteration token), and a
page lacking only `pollingIntervalMillis` (retry with the advanced
token). -/
theorem poll_error_classification_witness :
    poll_iteration sampleStream freshQueueHandler "tok" errorResp403 =
      (freshQueueHandler, "tok", Except.error (PyExc.httpError 403 "quota exceeded")) ∧
    poll_step sampleStream freshQueueHandler "tok" errorResp403 =
      StepResult.terminated freshQueueHandler ∧
    poll_loop sampleStream freshQueueHandler "tok" [errorResp403] =
      (freshQueueHandler, "tok", [], true) ∧
    poll_step sampleStream freshQueueHandler "tok" errorResp503 =
      StepResult.next freshQueueHandler "tok" retry_delay_ms ∧
    poll_step sampleStream freshQueueHandler "tok" partialPollResp =
      StepResult.next
        ({ freshQueueHandler with
            queue := some [Event.chatPolledEvent partialPollResp] })
        "t2" retry_delay_ms := by
  have h403 := poll_error_classification sampleStream freshQueueHandler "tok"
      errorResp403 { code := 403, errors := ["quota exceeded"] } "quota exceeded" []
      rfl rfl
  have h503 := poll_error_classification sampleStream freshQueueHandler "tok"
      errorResp503 { code := 503, errors := ["backend down"] } "backend down" []
      rfl rfl
  have hpartial := (h403.2.2.2.2 partialPollResp [] "t2" rfl rfl rfl rfl rfl).2
  exact ⟨h403.1, (h403.2.1 (by decide)).1, (h403.2.1 (by decide)).2 [],
    h503.2.2.1 (by decide), by simpa using hpartial⟩

/-- C6: `authorise` with `force` runs the interactive exchange regardless
of the on-disk token state; without `force`, an on-disk token whose
introspected `expires_in` is negative triggers the refresh POST and, when
it succeeds, persists the refreshed blob (the response JSON with the
`refresh_token` re-inserted); when the refresh POST does not succeed,
`authorise` falls back to the full interactive exchange and persists its
result instead of leaving the bot without tokens. -/
theorem authorise_force_refresh_fallback
    (env : AuthEnv) (file_tokens : TokenMap) (rt : TokenValue)
    (hsec : env.secrets = true) (hsess : env.session = true)
    (hfile : env.tokens_file = some file_tokens)
    (hacc : ∃ v, tmLookup file_tokens "access_token" = some v)
    (hrt : tmLookup file_tokens "refresh_token" = some rt)
    (hexp : env.introspect_expires_in < 0) :
    (∀ (env2 : AuthEnv), env2.secrets = true → env2.session = true →
      authorise env2 true = Except.ok (env2.fetch_result,
        [AuthAction.interactiveExchange, AuthAction.persist env2.fetch_result,
         AuthAction.dispatchAuthorised env2.fetch_result])) ∧
    (env.refresh_response.ok = true →
      authorise env false = Except.ok
        (tmSet env.refresh_response.json "refresh_token" rt,
         [AuthAction.introspect, AuthAction.refreshPost,
          AuthAction.persist (tmSet env.refresh_response.json "refresh_token" rt),
          AuthAction.dispatchAuthorised
            (tmSet env.refresh_response.json "refresh_token" rt)])) ∧
    (env.refresh_response.ok = false →
      authorise env false = Except.ok (env.fetch_result,
        [AuthAction.introspect, AuthAction.refreshPost,
         AuthAction.interactiveExchange, AuthAction.persist env.fetch_result,
         AuthAction.dispatchAuthorised env.fetch_result])) := by
  obtain ⟨av, hav⟩ := hacc
  have hrt2 : tmLookup
      (tmSet file_tokens "expires_in" (TokenValue.int env.introspect_expires_in))
      "refresh_token" = some rt := by
    rw [tmLookup_tmSet_ne _ _ _ _ (by decide)]
    exact hrt
  refine ⟨?_, ?_, ?_⟩
  · intro env2 hsec2 hsess2
    cases henv2 : env2.tokens_file <;>
      simp [authorise, hsec2, hsess2, henv2, fetch_path, set_tokens]
  · intro hok
    have hrefresh : _refresh_tokens env.refresh_response
        (tmSet file_tokens "expires_in" (TokenValue.int env.introspect_expires_in)) =
        Except.ok (tmSet env.refresh_response.json "refresh_token" rt) := by
      simp [_refresh_tokens, hrt2, hok, except_bind_ok]
    have hnenil := tmSet_ne_nil env.refresh_response.json "refresh_token" rt
    simp [authorise, hsec, hsess, hfile, hav, hexp, hrefresh, set_tokens, hnenil]
  · intro hok
    have hrefresh : _refresh_tokens env.refresh_response
        (tmSet file_tokens "expires_in" (TokenValue.int env.introspect_expires_in)) =
        Except.ok [] := by
      simp [_refresh_tokens, hrt2, hok, except_bind_ok]
    simp [authorise, hsec, hsess, hfile, hav, hexp, hrefresh, set_tokens]

/-- Witness for C6 on the concrete environments with an expired on-disk
token: forced interactive exchange, successful refresh, and refresh
failure falling back to the interactive exchange. -/
theorem authorise_force_refresh_fallback_witness :
    authorise authEnvRefreshOk true = Except.ok (sampleFetchResult,
      [AuthAction.interactiveExchange, AuthAction.persist sampleFetchResult,
       AuthAction.dispatchAuthorised sampleFetchResult]) ∧
    authorise authEnvRefreshOk false = Except.ok
      (tmSet sampleRefreshJson "refresh_token" (TokenValue.str "refresh-1"),
       [AuthAction.introspect, AuthAction.refreshPost,
        AuthAction.persist (tmSet sampleRefreshJson "refresh_token" (TokenValue.str "refresh-1")),
        AuthAction.dispatchAuthorised
          (tmSet sampleRefreshJson "refresh_token" (TokenValue.str "refresh-1"))]) ∧
    authorise authEnvRefreshFail false = Except.ok (sampleFetchResult,
      [AuthAction.introspect, AuthAction.refreshPost,
       AuthAction.interactiveExchange, AuthAction.persist sampleFetchResult,
       AuthAction.dispatchAuthorised sampleFetchResult]) := by
  have hok := authorise_force_refresh_fallback authEnvRefreshOk sampleFileTokens
      (TokenValue.str "refresh-1") rfl rfl rfl ⟨TokenValue.str "old-access", rfl⟩ rfl
      (by decide)
  have hfail := authorise_force_refresh_fallback authEnvRefreshFail sampleFileTokens
      (TokenValue.str "refresh-1") rfl rfl rfl ⟨TokenValue.str "old-access", rfl⟩ rfl
      (by decide)
  exact ⟨hok.1 authEnvRefreshOk rfl rfl, hok.2.1 rfl, hfail.2.2 rfl⟩

end Chatto
